import Mathlib

/-!
Verification of the SOBERANIA-PHIGUARD bidirectional multi-language safety
guard (`soberania_phiguard.py`).  The numeric state (risk, safety, velocity,
timestamps) is embedded over `ℚ`, with the module's decimal constants taken
as exact rationals.  Regular-expression matching is abstracted by its
observable output: for the resolved language, the number of matches of each
pattern of each category, and for the cross-language sweep, whether any
pattern of the category matches at all.  Everything downstream of that
interface (signal strengths, flags, risk delta, channel update, bilateral
aggregation, hand-off, lockdown, persistence restore) is embedded directly
from the source.
-/

namespace Soberania

/-! ## Constants (module header of `soberania_phiguard.py`) -/

/-- `PHI = 1.6180339887498949`, the decimal literal of the source. -/
def PHI : ℚ := 16180339887498949 / 10000000000000000

/-- `GAMMA = 1 / (6 * PHI)`. -/
def GAMMA : ℚ := 1 / (6 * PHI)

/-- `CLAMP_HIGH = 1 - GAMMA`. -/
def CLAMP_HIGH : ℚ := 1 - GAMMA

/-- `CLAMP_LOW = GAMMA`. -/
def CLAMP_LOW : ℚ := GAMMA

/-- `VOLATILE_DECAY = 1 / PHI`. -/
def VOLATILE_DECAY : ℚ := 1 / PHI

/-- `PERSISTENT_DECAY = GAMMA`. -/
def PERSISTENT_DECAY : ℚ := GAMMA

def V_CAP_HARM : ℚ := 50 / 100
def V_CAP_MANIPULATION : ℚ := 40 / 100
def V_CAP_COERCION : ℚ := 45 / 100

/-! ## Languages and directions -/

inductive Language where
  | spanish
  | english
  | portuguese
  | auto
deriving DecidableEq

inductive Direction where
  | inbound
  | outbound
  | bilateral
deriving DecidableEq

/-! ## Channel state (`ChannelState` dataclass) -/

/-- One entry of a channel's bounded history list. -/
structure HistEntry where
  turn : ℕ
  risk : ℚ
  safety : ℚ
  signals : List (String × ℚ)
  flags : List String
  timestamp : ℚ
deriving DecidableEq

/-- State for one direction of communication, with the dataclass defaults. -/
structure ChannelState where
  risk : ℚ := CLAMP_LOW
  safety : ℚ := 1
  uncertainty : ℚ := 0
  velocity : ℚ := 0
  last_update : ℚ := 0
  flags : List String := []
  turn_count : ℕ := 0
  history : List HistEntry := []
deriving DecidableEq

/-! ## Signal analysis (`_analyze_signals`)

The regex engine is abstracted by `m : String → List ℕ` (for each category
of the resolved language, the list of per-pattern match counts from
`pattern.findall`) and `cross : String → Bool` (whether any pattern of that
category in some other supported language has a match, from
`pattern.search`). -/

/-- The eight signal categories, in the insertion order of the source
pattern tables. -/
def categories : List String :=
  ["urgency", "fear", "authority", "isolation", "flattery", "coercion",
   "misinformation", "surrender"]

/-- Strength for one category: starting from the defaultdict zero, each
pattern with a positive match count adds `count * 0.2` and is then clamped
by `min 1.0`; afterwards a cross-language hit raises the strength to at
least `0.3`. -/
def categoryStrength (counts : List ℕ) (cross : Bool) : ℚ :=
  let base := counts.foldl
    (fun (s : ℚ) (n : ℕ) => if 0 < n then min 1 (s + (n : ℚ) * (2 / 10)) else s) 0
  if cross then max base (3 / 10) else base

/-- The signal map produced by `_analyze_signals`: a category is populated
exactly when some resolved-language pattern matched or a cross-language
pattern matched. -/
def analyze_signals (m : String → List ℕ) (cross : String → Bool) :
    List (String × ℚ) :=
  categories.filterMap fun cat =>
    if (m cat).any (fun n => 0 < n) || cross cat then
      some (cat, categoryStrength (m cat) (cross cat))
    else
      none

/-- `signals.get(cat, 0)` on the association list. -/
def getSignal (signals : List (String × ℚ)) (cat : String) : ℚ :=
  match signals.find? (fun p => p.1 == cat) with
  | some p => p.2
  | none => 0

/-- Composite flags derived from signal combinations. -/
def derive_flags (signals : List (String × ℚ)) : List String :=
  (if getSignal signals "flattery" > 3 / 10 ∧ getSignal signals "isolation" > 2 / 10
    then ["love_bombing"] else []) ++
  (if getSignal signals "fear" > 4 / 10 ∧ getSignal signals "urgency" > 3 / 10
    then ["fear_mongering"] else []) ++
  (if getSignal signals "authority" > 3 / 10 ∧ getSignal signals "coercion" > 3 / 10
    then ["authority_coercion"] else []) ++
  (if getSignal signals "isolation" > 4 / 10 then ["isolation_attempt"] else []) ++
  (if getSignal signals "misinformation" > 4 / 10 then ["disinfo_detected"] else []) ++
  (if getSignal signals "surrender" > 3 / 10 then ["surrender_pressure"] else [])

/-! ## Risk delta (`_compute_risk_delta`) -/

/-- `SIGNAL_MULTIPLIERS.get(signal, 1.0)`. -/
def SIGNAL_MULTIPLIERS (s : String) : ℚ :=
  if s = "harm" then 2 else
  if s = "manipulation" then 15 / 10 else
  if s = "coercion" then 2 else
  if s = "flattery" then 1 else
  if s = "isolation" then 15 / 10 else
  if s = "urgency" then 125 / 100 else
  if s = "authority" then 1 else
  if s = "misinformation" then 15 / 10 else
  if s = "fear" then 15 / 10 else
  if s = "surrender" then 175 / 100 else
  if s = "uncertainty" then 5 / 10 else
  if s = "distress" then 75 / 100 else 1

/-- `delta = Σ strength * multiplier * 0.1`, capped at `0.3`. -/
def compute_risk_delta (signals : List (String × ℚ)) : ℚ :=
  min (3 / 10)
    (signals.foldl (fun d p => d + p.2 * SIGNAL_MULTIPLIERS p.1 * (1 / 10)) 0)

/-! ## Channel update (`_update_channel`) -/

/-- The time-based decay applied at the top of `_update_channel` when the
channel has seen a previous update. -/
def decayChannel (c : ChannelState) (now : ℚ) : ChannelState :=
  if c.last_update > 0 then
    let decay_factor := min 1 ((now - c.last_update) / 10)
    { c with
      risk := c.risk * (1 - VOLATILE_DECAY * decay_factor)
      safety := max CLAMP_LOW (c.safety - PERSISTENT_DECAY * decay_factor * (1 / 10)) }
  else c

/-- The velocity-cap check of `_update_channel`: instantaneous per-category
intensity against the fixed caps. -/
def velocityExceeded (signals : List (String × ℚ)) : Bool :=
  signals.any fun p =>
    (p.1 == "harm" && decide (p.2 * (3 / 10) > V_CAP_HARM)) ||
    (p.1 == "manipulation" && decide (p.2 * (3 / 10) > V_CAP_MANIPULATION)) ||
    (p.1 == "coercion" && decide (p.2 * (3 / 10) > V_CAP_COERCION))

/-- Python set union `a.update(b)`, on membership lists. -/
def setUnion (a b : List String) : List String :=
  a ++ b.filter (fun x => !(a.contains x))

/-- The record returned by `_update_channel`. -/
structure UpdateResult where
  risk : ℚ
  safety : ℚ
  velocity : ℚ
  velocity_exceeded : Bool
  flags : List String
deriving DecidableEq

/-- `_update_channel`, step by step in the source order: increment turn
count, time-based decay, capped risk delta with velocity tracking, velocity
caps, flag accumulation, floor enforcement, safety erosion, timestamp, and
bounded history append. -/
def update_channel (c : ChannelState) (signals : List (String × ℚ))
    (flags : List String) (risk_delta : ℚ) (now : ℚ) :
    ChannelState × UpdateResult :=
  let c0 : ChannelState := { c with turn_count := c.turn_count + 1 }
  let c1 := decayChannel c0 now
  let newRisk := min CLAMP_HIGH (c1.risk + risk_delta)
  let vel := newRisk - c1.risk
  let ve := velocityExceeded signals
  let allFlags := setUnion c1.flags flags
  let flooredRisk := max CLAMP_LOW newRisk
  let newSafety :=
    if risk_delta > 0 then max CLAMP_LOW (c1.safety - risk_delta * GAMMA)
    else c1.safety
  let entry : HistEntry :=
    { turn := c0.turn_count, risk := flooredRisk, safety := newSafety,
      signals := signals, flags := flags, timestamp := now }
  let hist0 := c1.history ++ [entry]
  let hist := if hist0.length > 100 then hist0.drop (hist0.length - 100) else hist0
  let c2 : ChannelState :=
    { risk := flooredRisk, safety := newSafety, uncertainty := c1.uncertainty,
      velocity := vel, last_update := now, flags := allFlags,
      turn_count := c0.turn_count, history := hist }
  (c2, { risk := flooredRisk, safety := newSafety, velocity := vel,
         velocity_exceeded := ve, flags := allFlags })

/-! ## Guard state (`SoberaniaPhiGuard`) -/

/-- The mutable per-node guard state: two channels, the message counter and
the two session-sticky booleans.  Fields irrelevant to the dynamics
(node id, pattern cache, session start wall-clock) are omitted. -/
structure GuardState where
  inbound : ChannelState := {}
  outbound : ChannelState := {}
  total_messages : ℕ := 0
  handoff_triggered : Bool := false
  lockdown_active : Bool := false
deriving DecidableEq

/-- Channel selection of `process_message`: inbound iff the direction is
`INBOUND`, otherwise (outbound or bilateral) the outbound channel. -/
def GuardState.chanOf (g : GuardState) (dir : Direction) : ChannelState :=
  match dir with
  | .inbound => g.inbound
  | _ => g.outbound

def GuardState.setChan (g : GuardState) (dir : Direction) (c : ChannelState) :
    GuardState :=
  match dir with
  | .inbound => { g with inbound := c }
  | _ => { g with outbound := c }

/-- `_compute_level`. -/
def compute_level (risk : ℚ) : String :=
  if risk ≥ CLAMP_HIGH then "CRITICAL" else
  if risk ≥ 6 / 10 then "HIGH" else
  if risk ≥ 3 / 10 then "MODERATE" else "LOW"

/-- The result record built by `process_message` (language and metadata
echo omitted). -/
structure PMResult where
  signals : List (String × ℚ)
  flags : List String
  risk : ℚ
  safety : ℚ
  velocity : ℚ
  bilateral_risk : ℚ
  bilateral_safety : ℚ
  level : String
  handoff : Bool
  lockdown : Bool
deriving DecidableEq

/-- `process_message`, over the abstracted regex output for the resolved
language (`m`, `cross`): analyze signals, derive flags and the risk delta,
update the channel selected by the direction, aggregate bilaterally,
compute level and hand-off, and make `handoff_triggered` sticky. -/
def process_message (g : GuardState) (dir : Direction)
    (m : String → List ℕ) (cross : String → Bool) (now : ℚ) :
    GuardState × PMResult :=
  let g0 : GuardState := { g with total_messages := g.total_messages + 1 }
  let signals := analyze_signals m cross
  let flags := derive_flags signals
  let risk_delta := compute_risk_delta signals
  let ur := update_channel (g0.chanOf dir) signals flags risk_delta now
  let g1 := g0.setChan dir ur.1
  let bilateral_risk := max g1.inbound.risk g1.outbound.risk
  let bilateral_safety := min g1.inbound.safety g1.outbound.safety
  let level := compute_level bilateral_risk
  let handoff := decide (bilateral_risk ≥ CLAMP_HIGH) || ur.2.velocity_exceeded
  let g2 := if handoff && !g1.handoff_triggered
    then { g1 with handoff_triggered := true } else g1
  (g2, { signals := signals, flags := flags, risk := ur.2.risk,
         safety := ur.2.safety, velocity := ur.2.velocity,
         bilateral_risk := bilateral_risk, bilateral_safety := bilateral_safety,
         level := level, handoff := handoff, lockdown := g2.lockdown_active })

/-- `trigger_lockdown`: force both channel risks to `CLAMP_HIGH` and set
the lockdown flag. -/
def trigger_lockdown (g : GuardState) : GuardState :=
  { g with lockdown_active := true,
           inbound := { g.inbound with risk := CLAMP_HIGH },
           outbound := { g.outbound with risk := CLAMP_HIGH } }

/-- `release_lockdown`: clear the lockdown flag if set; risk is left to
decay naturally. -/
def release_lockdown (g : GuardState) : GuardState :=
  if g.lockdown_active then { g with lockdown_active := false } else g

/-- `reset`: fresh channels, counters and sticky flags. -/
def reset (_g : GuardState) : GuardState :=
  { inbound := {}, outbound := {}, total_messages := 0,
    handoff_triggered := false, lockdown_active := false }

/-! ## Session operation sequences -/

/-- One public mutating call other than `reset`. -/
inductive Op where
  | msg (dir : Direction) (m : String → List ℕ) (cross : String → Bool) (now : ℚ)
  | lockdown
  | release

def applyOp (g : GuardState) : Op → GuardState
  | .msg dir m cross now => (process_message g dir m cross now).1
  | .lockdown => trigger_lockdown g
  | .release => release_lockdown g

def applyOps (g : GuardState) (ops : List Op) : GuardState :=
  ops.foldl applyOp g

/-! ## Language detection (`_detect_language`) -/

/-- Word characters of the `\w` class (ASCII fragment). -/
def isWordChar (c : Char) : Bool := c.isAlphanum || c == '_'

/-- Maximal runs of word characters, as produced by
`re.findall(r'\b\w+\b', text)`. -/
def tokenizeAux : List Char → List Char → List String
  | [], [] => []
  | [], cur => [String.mk cur.reverse]
  | c :: rest, cur =>
    if isWordChar c then tokenizeAux rest (c :: cur)
    else if cur.isEmpty then tokenizeAux rest []
    else String.mk cur.reverse :: tokenizeAux rest []

/-- `text.lower()`, character by character. -/
def lowerChars (text : String) : List Char :=
  text.data.map Char.toLower

/-- The token list of the lowercased text. -/
def wordsOf (text : String) : List String :=
  tokenizeAux (lowerChars text) []

def es_markers : List String :=
  ["el", "la", "de", "que", "en", "es", "por", "con", "para"]

def pt_markers : List String :=
  ["o", "a", "de", "que", "em", "e", "por", "com", "para", "nao", "voce"]

def en_markers : List String :=
  ["the", "is", "are", "of", "to", "and", "in", "that", "you"]

/-- `len(words & set(markers))`: the marker lists are duplicate-free, so the
intersection size is the number of markers present among the tokens. -/
def markerScore (markers : List String) (words : List String) : ℕ :=
  (markers.filter (fun mk => words.contains mk)).length

/-- `_detect_language`: the asymmetric selection rule over the three marker
scores, defaulting to Spanish. -/
def detect_language (text : String) : Language :=
  let words := wordsOf text
  let es_score := markerScore es_markers words
  let pt_score := markerScore pt_markers words
  let en_score := markerScore en_markers words
  if pt_score > es_score ∧ pt_score > en_score then Language.portuguese
  else if en_score > es_score then Language.english
  else Language.spanish

/-! ## Persistence (`_load_state` / construction) -/

/-- The persisted per-channel document: each key may be missing. -/
structure RawChannelDoc where
  risk? : Option ℚ := none
  safety? : Option ℚ := none
  flags? : Option (List String) := none
  turn_count? : Option ℕ := none

/-- The persisted state document: each top-level key may be missing. -/
structure RawDoc where
  inbound? : Option RawChannelDoc := none
  outbound? : Option RawChannelDoc := none
  handoff? : Option Bool := none
  lockdown? : Option Bool := none

/-- One field assignment of `_load_state`: a missing key raises `KeyError`,
which the surrounding `except` catches, leaving the state assigned so far. -/
def step {α : Type} (g : GuardState) (v? : Option α) (k : α → GuardState) :
    GuardState :=
  match v? with
  | none => g
  | some v => k v

/-- `_load_state`: the assignments run in source order inside one `try`;
the first missing key aborts the rest but keeps every assignment already
made.  `none` models a document that failed to read or parse. -/
def load_state (g0 : GuardState) (doc? : Option RawDoc) : GuardState :=
  step g0 doc? fun d =>
  step g0 d.inbound? fun ic =>
  step g0 ic.risk? fun r1 =>
  let g1 := { g0 with inbound := { g0.inbound with risk := r1 } }
  step g1 ic.safety? fun s1 =>
  let g2 := { g1 with inbound := { g1.inbound with safety := s1 } }
  step g2 ic.flags? fun f1 =>
  let g3 := { g2 with inbound := { g2.inbound with flags := f1 } }
  step g3 ic.turn_count? fun t1 =>
  let g4 := { g3 with inbound := { g3.inbound with turn_count := t1 } }
  step g4 d.outbound? fun oc =>
  step g4 oc.risk? fun r2 =>
  let g5 := { g4 with outbound := { g4.outbound with risk := r2 } }
  step g5 oc.safety? fun s2 =>
  let g6 := { g5 with outbound := { g5.outbound with safety := s2 } }
  step g6 oc.flags? fun f2 =>
  let g7 := { g6 with outbound := { g6.outbound with flags := f2 } }
  step g7 oc.turn_count? fun t2 =>
  let g8 := { g7 with outbound := { g7.outbound with turn_count := t2 } }
  step g8 d.handoff? fun h1 =>
  let g9 := { g8 with handoff_triggered := h1 }
  step g9 d.lockdown? fun l1 =>
  { g9 with lockdown_active := l1 }

/-- Construction: `__init__` builds fresh channels and sticky flags, then
restores from the state file only when one exists (`file? = some parsed`,
where `parsed = none` models a read or JSON-parse failure caught by
`_load_state`). -/
def construct (file? : Option (Option RawDoc)) : GuardState :=
  match file? with
  | none => {}
  | some parsed => load_state {} parsed

/-! ## Numeric facts about the constants -/

theorem gamma_pos : 0 < GAMMA := by norm_num [GAMMA, PHI]

theorem gamma_lt_half : GAMMA < 1 / 2 := by norm_num [GAMMA, PHI]

theorem clamp_low_le_high : CLAMP_LOW ≤ CLAMP_HIGH := by
  norm_num [CLAMP_LOW, CLAMP_HIGH, GAMMA, PHI]

theorem clamp_low_le_three_tenths : CLAMP_LOW ≤ 3 / 10 := by
  norm_num [CLAMP_LOW, GAMMA, PHI]

theorem volatile_decay_nonneg : 0 ≤ VOLATILE_DECAY := by
  norm_num [VOLATILE_DECAY, PHI]

theorem volatile_decay_le_one : VOLATILE_DECAY ≤ 1 := by
  norm_num [VOLATILE_DECAY, PHI]

theorem decayChannel_safety_ge (c : ChannelState) (now : ℚ)
    (h : CLAMP_LOW ≤ c.safety) : CLAMP_LOW ≤ (decayChannel c now).safety := by
  unfold decayChannel
  split
  · exact le_max_left _ _
  · exact h

theorem decayChannel_risk_nonneg (c : ChannelState) (now : ℚ)
    (h : 0 ≤ c.risk) : 0 ≤ (decayChannel c now).risk := by
  unfold decayChannel
  split
  · refine mul_nonneg h ?_
    have h1 : min 1 ((now - c.last_update) / 10) ≤ 1 := min_le_left _ _
    have h2 : VOLATILE_DECAY * min 1 ((now - c.last_update) / 10) ≤ VOLATILE_DECAY * 1 :=
      mul_le_mul_of_nonneg_left h1 volatile_decay_nonneg
    have h3 : VOLATILE_DECAY * 1 ≤ 1 := by
      rw [mul_one]; exact volatile_decay_le_one
    linarith
  · exact h

theorem decayChannel_flags (c : ChannelState) (now : ℚ) :
    (decayChannel c now).flags = c.flags := by
  unfold decayChannel
  split <;> rfl

/-- C1: after every `_update_channel` call on a channel whose safety is at
least `CLAMP_LOW` (as in every reachable state), the returned channel
satisfies `CLAMP_LOW ≤ risk ≤ CLAMP_HIGH` and `safety ≥ CLAMP_LOW`. -/
theorem update_channel_bounds (c : ChannelState) (signals : List (String × ℚ))
    (flags : List String) (risk_delta now : ℚ)
    (hsafe : CLAMP_LOW ≤ c.safety) :
    CLAMP_LOW ≤ (update_channel c signals flags risk_delta now).1.risk ∧
    (update_channel c signals flags risk_delta now).1.risk ≤ CLAMP_HIGH ∧
    CLAMP_LOW ≤ (update_channel c signals flags risk_delta now).1.safety := by
  simp only [update_channel]
  refine ⟨le_max_left _ _, max_le clamp_low_le_high (min_le_left _ _), ?_⟩
  have hdec : CLAMP_LOW ≤ (decayChannel { c with turn_count := c.turn_count + 1 } now).safety :=
    decayChannel_safety_ge _ now hsafe
  split
  · exact le_max_left _ _
  · exact hdec

theorem update_channel_bounds_witness :
    CLAMP_LOW ≤ (update_channel {} [] [] 0 5).1.risk ∧
    (update_channel {} [] [] 0 5).1.risk ≤ CLAMP_HIGH ∧
    CLAMP_LOW ≤ (update_channel {} [] [] 0 5).1.safety :=
  update_channel_bounds {} [] [] 0 5
    (by show CLAMP_LOW ≤ (1 : ℚ); norm_num [CLAMP_LOW, GAMMA, PHI])

/-- C2: the risk delta computed for any single message is at most `0.3`,
and hence the risk increase within one update, measured from the value the
risk has after the time-based decay, is at most `0.3`. -/
theorem single_message_delta_cap (c : ChannelState) (signals : List (String × ℚ))
    (flags : List String) (now : ℚ) :
    compute_risk_delta signals ≤ 3 / 10 ∧
    (0 ≤ c.risk →
      (update_channel c signals flags (compute_risk_delta signals) now).1.risk -
        (decayChannel { c with turn_count := c.turn_count + 1 } now).risk ≤ 3 / 10) := by
  constructor
  · exact min_le_left _ _
  · intro hr
    simp only [update_channel]
    have hd : compute_risk_delta signals ≤ 3 / 10 := min_le_left _ _
    have hrd : 0 ≤ (decayChannel { c with turn_count := c.turn_count + 1 } now).risk :=
      decayChannel_risk_nonneg _ now hr
    have h1 : min CLAMP_HIGH
        ((decayChannel { c with turn_count := c.turn_count + 1 } now).risk +
          compute_risk_delta signals) ≤
        (decayChannel { c with turn_count := c.turn_count + 1 } now).risk + 3 / 10 := by
      refine le_trans (min_le_right _ _) ?_
      linarith
    have h2 : CLAMP_LOW ≤
        (decayChannel { c with turn_count := c.turn_count + 1 } now).risk + 3 / 10 := by
      have := clamp_low_le_three_tenths
      linarith
    have h3 := max_le h2 h1
    linarith

theorem single_message_delta_cap_witness :
    compute_risk_delta [] ≤ 3 / 10 ∧
    (update_channel {} [] [] (compute_risk_delta []) 5).1.risk -
      (decayChannel { ({} : ChannelState) with
        turn_count := ({} : ChannelState).turn_count + 1 } 5).risk ≤ 3 / 10 :=
  ⟨(single_message_delta_cap {} [] [] 5).1,
   (single_message_delta_cap {} [] [] 5).2
     (by show (0 : ℚ) ≤ CLAMP_LOW; norm_num [CLAMP_LOW, GAMMA, PHI])⟩

theorem decayChannel_risk_antitone (c : ChannelState) (now1 now2 : ℚ)
    (hr : 0 ≤ c.risk) (h12 : now1 ≤ now2) :
    (decayChannel c now2).risk ≤ (decayChannel c now1).risk := by
  unfold decayChannel
  by_cases hlu : c.last_update > 0
  · simp only [if_pos hlu]
    refine mul_le_mul_of_nonneg_left ?_ hr
    have hm : min 1 ((now1 - c.last_update) / 10) ≤ min 1 ((now2 - c.last_update) / 10) := by
      refine min_le_min le_rfl ?_
      linarith
    have := mul_le_mul_of_nonneg_left hm volatile_decay_nonneg
    linarith
  · simp only [if_neg hlu]
    exact le_rfl

/-- C7: the post-update risk is non-increasing in the elapsed time since
the previous update: with the same starting channel and the same message,
a later `now` (larger gap) yields risk less than or equal to an earlier
`now` (back-to-back). -/
theorem decay_monotone (c : ChannelState) (signals : List (String × ℚ))
    (flags : List String) (risk_delta : ℚ) (now1 now2 : ℚ)
    (hr : 0 ≤ c.risk) (h12 : now1 ≤ now2) :
    (update_channel c signals flags risk_delta now2).1.risk ≤
    (update_channel c signals flags risk_delta now1).1.risk := by
  simp only [update_channel]
  have key : (decayChannel { c with turn_count := c.turn_count + 1 } now2).risk ≤
      (decayChannel { c with turn_count := c.turn_count + 1 } now1).risk :=
    decayChannel_risk_antitone _ now1 now2 hr h12
  exact max_le_max le_rfl (min_le_min le_rfl (by linarith))

/-- A channel one update deep, for exercising the decay branch. -/
def witnessChannel : ChannelState := { risk := 1 / 2, last_update := 1 }

theorem decay_monotone_witness :
    (update_channel witnessChannel [] [] 0 100).1.risk ≤
    (update_channel witnessChannel [] [] 0 2).1.risk :=
  decay_monotone witnessChannel [] [] 0 2 100
    (by show (0 : ℚ) ≤ 1 / 2; norm_num) (by norm_num)

/-- C9: the cumulative flag set of a channel never loses a member across an
update: every flag present before `_update_channel` is present after it. -/
theorem flags_monotone (c : ChannelState) (signals : List (String × ℚ))
    (flags : List String) (risk_delta now : ℚ) (f : String)
    (hf : f ∈ c.flags) :
    f ∈ (update_channel c signals flags risk_delta now).1.flags := by
  simp only [update_channel, setUnion]
  refine List.mem_append_left _ ?_
  rw [decayChannel_flags]
  exact hf

theorem flags_monotone_witness :
    "love_bombing" ∈
      (update_channel { flags := ["love_bombing"] } [] [] 0 5).1.flags :=
  flags_monotone { flags := ["love_bombing"] } [] [] 0 5 "love_bombing" (by decide)

theorem setChan_handoff (g : GuardState) (dir : Direction) (c : ChannelState) :
    (g.setChan dir c).handoff_triggered = g.handoff_triggered := by
  cases dir <;> rfl

theorem process_message_handoff_mono (g : GuardState) (dir : Direction)
    (m : String → List ℕ) (cross : String → Bool) (now : ℚ)
    (h : g.handoff_triggered = true) :
    (process_message g dir m cross now).1.handoff_triggered = true := by
  simp only [process_message]
  split
  · rfl
  · rw [setChan_handoff]
    exact h

theorem applyOp_handoff_mono (g : GuardState) (op : Op)
    (h : g.handoff_triggered = true) :
    (applyOp g op).handoff_triggered = true := by
  cases op with
  | msg dir m cross now => exact process_message_handoff_mono g dir m cross now h
  | lockdown => exact h
  | release =>
    simp only [applyOp, release_lockdown]
    split
    · exact h
    · exact h

theorem applyOps_handoff_mono (ops : List Op) :
    ∀ g : GuardState, g.handoff_triggered = true →
      (applyOps g ops).handoff_triggered = true := by
  induction ops with
  | nil => intro g h; exact h
  | cons op rest ih =>
    intro g h
    exact ih (applyOp g op) (applyOp_handoff_mono g op h)

/-- C3: `handoff_triggered` is monotone within a session: from any state in
which it is true, any sequence of `process_message`, `trigger_lockdown` and
`release_lockdown` calls leaves it true, and only `reset` returns it to
false. -/
theorem handoff_monotone (g : GuardState) (ops : List Op)
    (h : g.handoff_triggered = true) :
    (applyOps g ops).handoff_triggered = true ∧
    (reset (applyOps g ops)).handoff_triggered = false :=
  ⟨applyOps_handoff_mono ops g h, rfl⟩

theorem handoff_monotone_witness :
    (applyOps { handoff_triggered := true } [Op.lockdown, Op.release]).handoff_triggered = true ∧
    (reset (applyOps { handoff_triggered := true } [Op.lockdown, Op.release])).handoff_triggered
      = false :=
  handoff_monotone { handoff_triggered := true } [Op.lockdown, Op.release] rfl

theorem foldl_strength_le_one (counts : List ℕ) (s : ℚ) (hs : s ≤ 1) :
    counts.foldl
      (fun (s : ℚ) (n : ℕ) => if 0 < n then min 1 (s + (n : ℚ) * (2 / 10)) else s) s ≤ 1 := by
  induction counts generalizing s with
  | nil => exact hs
  | cons n rest ih =>
    apply ih
    dsimp only
    split
    · exact min_le_left _ _
    · exact hs

theorem categoryStrength_le_one (counts : List ℕ) (cross : Bool) :
    categoryStrength counts cross ≤ 1 := by
  unfold categoryStrength
  have hb := foldl_strength_le_one counts 0 (by norm_num)
  split
  · exact max_le hb (by norm_num)
  · exact hb

theorem analyze_signals_le_one (m : String → List ℕ) (cross : String → Bool) :
    ∀ p ∈ analyze_signals m cross, p.2 ≤ 1 := by
  intro p hp
  simp only [analyze_signals, List.mem_filterMap] at hp
  obtain ⟨cat, _, hcat⟩ := hp
  split at hcat
  · cases hcat
    exact categoryStrength_le_one _ _
  · cases hcat

theorem velocityExceeded_analyze (m : String → List ℕ) (cross : String → Bool) :
    velocityExceeded (analyze_signals m cross) = false := by
  rw [velocityExceeded, List.any_eq_false]
  intro p hp
  have h1 : p.2 ≤ 1 := analyze_signals_le_one m cross p hp
  have h2 : p.2 * (3 / 10) ≤ 3 / 10 := by linarith
  simp only [Bool.or_eq_true, Bool.and_eq_true, decide_eq_true_eq, not_or, not_and]
  refine ⟨⟨fun _ => ?_, fun _ => ?_⟩, fun _ => ?_⟩ <;> rw [not_lt]
  · rw [V_CAP_HARM]; linarith
  · rw [V_CAP_MANIPULATION]; linarith
  · rw [V_CAP_COERCION]; linarith

/-- C4: for every message, every strength produced by `_analyze_signals`
is at most `1.0`; therefore the velocity-cap check never fires, and the
hand-off condition of `process_message` is equivalent to
`bilateral_risk ≥ CLAMP_HIGH` alone. -/
theorem analyzer_strengths_velocity_handoff (m : String → List ℕ) (cross : String → Bool) :
    (∀ p ∈ analyze_signals m cross, p.2 ≤ 1) ∧
    velocityExceeded (analyze_signals m cross) = false ∧
    ∀ (g : GuardState) (dir : Direction) (now : ℚ),
      (process_message g dir m cross now).2.handoff =
        decide ((process_message g dir m cross now).2.bilateral_risk ≥ CLAMP_HIGH) := by
  refine ⟨analyze_signals_le_one m cross, velocityExceeded_analyze m cross, ?_⟩
  intro g dir now
  simp only [process_message, update_channel, velocityExceeded_analyze m cross,
    Bool.or_false]

theorem analyzer_strengths_velocity_handoff_witness :
    ("urgency", categoryStrength [] true) ∈
      analyze_signals (fun _ => ([] : List ℕ)) (fun _ => true) ∧
    categoryStrength [] true ≤ 1 ∧
    velocityExceeded (analyze_signals (fun _ => ([] : List ℕ)) (fun _ => true)) = false ∧
    (process_message {} Direction.inbound (fun _ => ([] : List ℕ)) (fun _ => true) 1).2.handoff =
      decide ((process_message {} Direction.inbound (fun _ => ([] : List ℕ))
        (fun _ => true) 1).2.bilateral_risk ≥ CLAMP_HIGH) := by
  have h := analyzer_strengths_velocity_handoff (fun _ => ([] : List ℕ)) (fun _ => true)
  have hmem : ("urgency", categoryStrength [] true) ∈
      analyze_signals (fun _ => ([] : List ℕ)) (fun _ => true) := by
    unfold analyze_signals
    exact List.mem_filterMap.mpr ⟨"urgency", by simp [categories], rfl⟩
  exact ⟨hmem, h.1 _ hmem, h.2.1, h.2.2 {} Direction.inbound 1⟩

/-- C5: `trigger_lockdown` forces both channel risks to `CLAMP_HIGH` and
sets `lockdown_active`; a subsequent `release_lockdown` clears
`lockdown_active` and leaves every other component of the guard state
unchanged at that instant. -/
theorem lockdown_release_frame (g : GuardState) :
    (trigger_lockdown g).inbound.risk = CLAMP_HIGH ∧
    (trigger_lockdown g).outbound.risk = CLAMP_HIGH ∧
    (trigger_lockdown g).lockdown_active = true ∧
    (release_lockdown (trigger_lockdown g)).lockdown_active = false ∧
    (release_lockdown (trigger_lockdown g)).inbound = (trigger_lockdown g).inbound ∧
    (release_lockdown (trigger_lockdown g)).outbound = (trigger_lockdown g).outbound ∧
    (release_lockdown (trigger_lockdown g)).handoff_triggered =
      (trigger_lockdown g).handoff_triggered ∧
    (release_lockdown (trigger_lockdown g)).total_messages =
      (trigger_lockdown g).total_messages := by
  refine ⟨rfl, rfl, rfl, ?_, ?_, ?_, ?_, ?_⟩ <;> rfl

theorem lockdown_release_frame_witness :
    (trigger_lockdown {}).inbound.risk = CLAMP_HIGH ∧
    (trigger_lockdown {}).outbound.risk = CLAMP_HIGH ∧
    (trigger_lockdown {}).lockdown_active = true ∧
    (release_lockdown (trigger_lockdown {})).lockdown_active = false ∧
    (release_lockdown (trigger_lockdown {})).inbound = (trigger_lockdown {}).inbound ∧
    (release_lockdown (trigger_lockdown {})).outbound = (trigger_lockdown {}).outbound ∧
    (release_lockdown (trigger_lockdown {})).handoff_triggered =
      (trigger_lockdown {}).handoff_triggered ∧
    (release_lockdown (trigger_lockdown {})).total_messages =
      (trigger_lockdown {}).total_messages :=
  lockdown_release_frame {}

/-- A persisted document that parses as JSON but lacks the `outbound` key:
the inbound fields are restored before the failure is raised. -/
def badDoc : RawDoc :=
  { inbound? := some { risk? := some (1 / 2), safety? := some (9 / 10),
                       flags? := some [], turn_count? := some 1 },
    outbound? := none, handoff? := none, lockdown? := none }

/-- C6 counterexample: loading `badDoc` is caught without raising, but the
guard does not end in fresh-session defaults — the inbound risk keeps the
partially restored value `1/2` instead of the default `CLAMP_LOW`. -/
theorem load_state_partial_restore :
    (construct (some (some badDoc))).inbound.risk = 1 / 2 ∧
    (construct (some (some badDoc))).inbound.risk ≠ ({} : GuardState).inbound.risk := by
  constructor
  · rfl
  · show (1 / 2 : ℚ) ≠ CLAMP_LOW
    norm_num [CLAMP_LOW, GAMMA, PHI]

/-- C6 (amended): construction is total, and when the persisted document is
unreadable or fails to parse — so that the failure is caught before any
field is assigned — the guard ends in fresh-session default state; a
document that parses but is structurally incomplete may leave the fields
assigned before the failure partially restored. -/
theorem load_unreadable_defaults :
    construct (some none) = ({} : GuardState) ∧
    construct none = ({} : GuardState) :=
  ⟨rfl, rfl⟩

/-- C8: language detection follows the exact asymmetric rule on the three
marker-intersection scores, and any text with zero overlap with all three
marker sets resolves to Spanish. -/
theorem detect_language_rule (text : String) :
    (detect_language text =
      if markerScore pt_markers (wordsOf text) > markerScore es_markers (wordsOf text) ∧
         markerScore pt_markers (wordsOf text) > markerScore en_markers (wordsOf text)
       then Language.portuguese
       else if markerScore en_markers (wordsOf text) > markerScore es_markers (wordsOf text)
       then Language.english
       else Language.spanish) ∧
    (markerScore es_markers (wordsOf text) = 0 →
     markerScore pt_markers (wordsOf text) = 0 →
     markerScore en_markers (wordsOf text) = 0 →
     detect_language text = Language.spanish) := by
  constructor
  · rfl
  · intro hes hpt hen
    simp [detect_language, hes, hpt, hen]

theorem detect_language_rule_witness :
    detect_language "zzz qqq" = Language.spanish :=
  (detect_language_rule "zzz qqq").2 (by decide) (by decide) (by decide)

/-- C10: a freshly constructed guard without a persisted record has, on
both channels, risk exactly `CLAMP_LOW`, safety exactly `1.0`, velocity
`0`, `last_update` `0`, no flags, `turn_count` `0` and empty history; and
`reset` restores exactly that state. -/
theorem fresh_and_reset_defaults (g : GuardState) :
    (construct none).inbound.risk = CLAMP_LOW ∧
    (construct none).inbound.safety = 1 ∧
    (construct none).inbound.velocity = 0 ∧
    (construct none).inbound.last_update = 0 ∧
    (construct none).inbound.flags = [] ∧
    (construct none).inbound.turn_count = 0 ∧
    (construct none).inbound.history = [] ∧
    (construct none).outbound = (construct none).inbound ∧
    (construct none).total_messages = 0 ∧
    (construct none).handoff_triggered = false ∧
    reset g = construct none :=
  ⟨rfl, rfl, rfl, rfl, rfl, rfl, rfl, rfl, rfl, rfl, rfl⟩

theorem fresh_and_reset_defaults_witness :
    (construct none).inbound.risk = CLAMP_LOW ∧
    (construct none).inbound.safety = 1 ∧
    (construct none).inbound.velocity = 0 ∧
    (construct none).inbound.last_update = 0 ∧
    (construct none).inbound.flags = [] ∧
    (construct none).inbound.turn_count = 0 ∧
    (construct none).inbound.history = [] ∧
    (construct none).outbound = (construct none).inbound ∧
    (construct none).total_messages = 0 ∧
    (construct none).handoff_triggered = false ∧
    reset { handoff_triggered := true, total_messages := 7 } = construct none :=
  fresh_and_reset_defaults { handoff_triggered := true, total_messages := 7 }

end Soberania
